import Mathlib

/-!
# Verification of the telegram_user_migrator migration engine

Shallow embedding of `telegram_user_migrator.py`: the single-account
executor (`TelegramMigrator`), the multi-account scheduler
(`MultiAccountMigrator`) and the relevant parts of `main`.

Modelling conventions:
* Python `float` scores are modelled as exact unnormalised fractions
  (`Score`, with a `toRat` view); every claim settled here depends only on
  order/bound facts that hold with ample margin, where exact rational
  arithmetic and IEEE doubles agree.
* Wall-clock time is a natural number of seconds; `asyncio.sleep(d)`
  advances the clock by `d` and is recorded as an event.
* Side effects (platform calls, progress-file writes, sleeps) are recorded
  in an event trace returned next to the new state.
* Python `int` counters are `Int` (they may go negative); member ids are `Nat`.
-/

/-- `INVITE_DELAY` constant (line 35 of the source). -/
def INVITE_DELAY : Nat := 60

/-- `FLOOD_ERROR_DELAY` constant (line 36 of the source). -/
def FLOOD_ERROR_DELAY : Nat := 3600

/-- The `self.stats` dictionary of a migrator. `errors` is an
insertion-ordered association list, mirroring a Python dict. -/
structure Stats where
  total : Int
  success : Int
  failed : Int
  skipped : Int
  errors : List (String × Int)
deriving Repr, DecidableEq

/-- Fresh stats, as initialised in `TelegramMigrator.__init__`. -/
def Stats.init : Stats := ⟨0, 0, 0, 0, []⟩

/-- `_update_error_stats` (lines 454-458): create the key with value 0 if
absent (appending, as Python dicts are insertion ordered), then add 1. -/
def bump_error (errors : List (String × Int)) (k : String) : List (String × Int) :=
  if errors.any (fun p => p.1 = k) then
    errors.map (fun p => if p.1 = k then (p.1, p.2 + 1) else p)
  else errors ++ [(k, 1)]

/-- A member as produced by enumerating the source chat
(`member.user` fields used by the script). -/
structure Member where
  id : Nat
  is_bot : Bool
  is_deleted : Bool
  is_self : Bool
deriving Repr, DecidableEq

/-- Result of the platform call `client.add_chat_members` for a given user:
either success or one of the exceptions the script catches
(lines 332-395). -/
inductive PlatformResult where
  | ok
  | flood_wait (seconds : Nat)
  | user_privacy_restricted
  | user_not_mutual_contact
  | peer_id_invalid
  | chat_admin_required
  | user_channels_too_much
  | input_user_deactivated
  | channel_private
  | peer_flood
  | other_error (msg : String)
deriving Repr, DecidableEq

/-- Observable side effects of executor operations. -/
inductive Event where
  | saveProgress (file : String)
  | loadProgress (file : String)
  | removeProgress (file : String)
  | sleep (seconds : Nat)
  | platformAdd (uid : Nat)
  | attemptOn (account : Nat)
deriving Repr, DecidableEq

/-- Seconds spent sleeping in a trace. -/
def elapsed (evs : List Event) : Nat :=
  evs.foldl (fun a e => match e with | .sleep d => a + d | _ => a) 0

/-- The mutable state of one `TelegramMigrator` (fields of `__init__`,
lines 70-89, that the modelled operations touch). -/
structure TelegramMigrator where
  stats : Stats
  processed_users : List Nat
  dry_run : Bool
  progress_file : String
  should_exit : Bool
deriving Repr, DecidableEq

/-- `TelegramMigrator.__init__` (lines 70-89). -/
def TelegramMigrator.init (session_name : String) : TelegramMigrator :=
  { stats := Stats.init
    processed_users := []
    dry_run := false
    progress_file := session_name ++ "_progress.pkl"
    should_exit := false }

/-- Which branch of `add_user` (lines 306-395) ran; maps onto the spec's
tagged-outcome set `{Added, Simulated, AlreadyProcessed, RateLimited,
FloodPenalty, Rejected}`.  The Python function returns a `bool`;
`AddOutcome.toBool` gives that value. -/
inductive AddOutcome where
  | alreadyProcessed
  | simulated
  | added
  | rateLimited (wait : Nat)
  | floodPenalty
  | rejected (category : String)
deriving Repr, DecidableEq

/-- The boolean actually returned by the Python `add_user`. -/
def AddOutcome.toBool : AddOutcome → Bool
  | .alreadyProcessed => true
  | .simulated => true
  | .added => true
  | _ => false

/-- Shared shape of the semantic-rejection handlers of `add_user`
(lines 344-378 and the generic branch at 391-395): log, record the error
category, mark the member processed, return `False`. -/
def rejected_case (s : TelegramMigrator) (uid : Nat) (category : String) :
    AddOutcome × TelegramMigrator × List Event :=
  (.rejected category,
   { s with stats := { s.stats with errors := bump_error s.stats.errors category }
            processed_users := uid :: s.processed_users },
   [.platformAdd uid])

/-- `TelegramMigrator.add_user` (lines 306-395). `resp` is the platform
client's behaviour for each user id. -/
def TelegramMigrator.add_user (resp : Nat → PlatformResult) (s : TelegramMigrator)
    (uid : Nat) : AddOutcome × TelegramMigrator × List Event :=
  if uid ∈ s.processed_users then
    (.alreadyProcessed, s, [])
  else if s.dry_run then
    (.simulated, { s with processed_users := uid :: s.processed_users }, [])
  else
    match resp uid with
    | .ok =>
        (.added, { s with processed_users := uid :: s.processed_users },
         [.platformAdd uid, .saveProgress s.progress_file, .sleep INVITE_DELAY])
    | .flood_wait w =>
        (.rateLimited w, s,
         [.platformAdd uid, .saveProgress s.progress_file, .sleep w])
    | .user_privacy_restricted => rejected_case s uid "Privacy Restricted"
    | .user_not_mutual_contact => rejected_case s uid "Not Mutual Contact"
    | .peer_id_invalid => rejected_case s uid "Invalid User"
    | .chat_admin_required => rejected_case s uid "Admin Privileges Required"
    | .user_channels_too_much => rejected_case s uid "User In Too Many Channels"
    | .input_user_deactivated => rejected_case s uid "User Deactivated"
    | .channel_private => rejected_case s uid "Channel Private"
    | .peer_flood =>
        (.floodPenalty,
         { s with stats := { s.stats with errors := bump_error s.stats.errors "Peer Flood Error" } },
         [.platformAdd uid, .saveProgress s.progress_file, .sleep FLOOD_ERROR_DELAY])
    | .other_error msg => rejected_case s uid msg

/-! ## Batch processing (single account) -/

/-- One step of the caller loops at lines 426-430 and 1234-1237: a `True`
return increments `stats.success`, a `False` return increments
`stats.failed`. -/
def record_result (out : AddOutcome) (s : TelegramMigrator) : TelegramMigrator :=
  if out.toBool then
    { s with stats := { s.stats with success := s.stats.success + 1 } }
  else
    { s with stats := { s.stats with failed := s.stats.failed + 1 } }

/-- `users[i:i+batch_size] for i in range(0, len(users), batch_size)`
(line 412), fuelled by the list length (any positive `bs` drops at least
one element per step). -/
def chunks_go (bs : Nat) : Nat → List Nat → List (List Nat)
  | 0, _ => []
  | _, [] => []
  | fuel + 1, l => l.take bs :: chunks_go bs fuel (l.drop bs)

def chunks (bs : Nat) (l : List Nat) : List (List Nat) := chunks_go bs l.length l

/-- The inner per-user loop of one batch (lines 424-439). The `Bool` result
records whether the loop returned early on `should_exit`. -/
def process_chunk (resp : Nat → PlatformResult) :
    List Nat → TelegramMigrator → TelegramMigrator × List Event × Bool
  | [], s => (s, [], false)
  | uid :: rest, s =>
    let r0 := TelegramMigrator.add_user resp s uid
    let s2 := record_result r0.1 r0.2.1
    if s2.should_exit then (s2, r0.2.2, true)
    else
      let r := process_chunk resp rest s2
      (r.1, r0.2.2 ++ r.2.1, r.2.2)

/-- The chunk loop of `batch_add_users` (lines 414-452): exit check at the
top, process the chunk, save progress, sleep between (not after the last)
chunks. `i` is the 1-based chunk counter. -/
def batch_add_users_go (resp : Nat → PlatformResult) (delay : Nat) (total_chunks : Nat) :
    List (List Nat) → Nat → TelegramMigrator → TelegramMigrator × List Event
  | [], _, s => (s, [])
  | chunk :: rest, i, s =>
    if s.should_exit then (s, [])
    else
      let r0 := process_chunk resp chunk s
      if r0.2.2 then (r0.1, r0.2.1)
      else
        let s1 := r0.1
        let evs := r0.2.1 ++ [Event.saveProgress s1.progress_file]
        let evs := if i < total_chunks && ! s1.should_exit then
            evs ++ [Event.sleep delay] else evs
        let r := batch_add_users_go resp delay total_chunks rest (i + 1) s1
        (r.1, evs ++ r.2)

/-- `TelegramMigrator.batch_add_users` (lines 397-452). -/
def TelegramMigrator.batch_add_users (resp : Nat → PlatformResult)
    (batch_size delay : Nat) (s : TelegramMigrator) (uids : List Nat) :
    TelegramMigrator × List Event :=
  if uids = [] then (s, [])
  else
    let uids := if s.processed_users ≠ [] then
        uids.filter (fun u => ! decide (u ∈ s.processed_users)) else uids
    if uids = [] then (s, [])
    else
      let cs := chunks batch_size uids
      batch_add_users_go resp delay cs.length cs 1 s

/-! ## Member enumeration (single account) -/

/-- The collection loop of `get_chat_members` (lines 273-295): skip
bots/deleted (when filtering) and self, counting them in `stats.skipped`;
stop once `limit` members are collected when `limit ≠ 0`. -/
def TelegramMigrator.get_chat_members_go (filter_bots : Bool) (limit : Nat) :
    List Member → List Member → Int → List Member × Int
  | [], acc, skipped => (acc.reverse, skipped)
  | mem :: rest, acc, skipped =>
    if filter_bots && (mem.is_bot || mem.is_deleted) then
      TelegramMigrator.get_chat_members_go filter_bots limit rest acc (skipped + 1)
    else if mem.is_self then
      TelegramMigrator.get_chat_members_go filter_bots limit rest acc (skipped + 1)
    else
      let acc := mem :: acc
      if limit ≠ 0 ∧ limit ≤ acc.length then (acc.reverse, skipped)
      else TelegramMigrator.get_chat_members_go filter_bots limit rest acc skipped

/-- `TelegramMigrator.get_chat_members` (lines 253-304). `raw` is the lazy
member sequence delivered by the platform client. -/
def TelegramMigrator.get_chat_members (filter_bots : Bool) (limit : Nat)
    (s : TelegramMigrator) (raw : List Member) : List Member × TelegramMigrator :=
  let r := TelegramMigrator.get_chat_members_go filter_bots limit raw [] s.stats.skipped
  (r.1, { s with stats := { s.stats with skipped := r.2 } })

/-! ## Retry passes (single account) -/

/-- One pass of `retry_failed_users` (lines 679-687): re-attempt each user,
on success increment `stats.success` and decrement `stats.failed`, else
collect into the newly-failed list; sleep 2 s after every user. -/
def retry_pass (resp : Nat → PlatformResult) :
    List Nat → TelegramMigrator → TelegramMigrator × List Event × List Nat
  | [], s => (s, [], [])
  | uid :: rest, s =>
    let r0 := TelegramMigrator.add_user resp s uid
    if r0.1.toBool then
      let s2 := { r0.2.1 with stats := { r0.2.1.stats with
        success := r0.2.1.stats.success + 1, failed := r0.2.1.stats.failed - 1 } }
      let r := retry_pass resp rest s2
      (r.1, r0.2.2 ++ [Event.sleep 2] ++ r.2.1, r.2.2)
    else
      let r := retry_pass resp rest r0.2.1
      (r.1, r0.2.2 ++ [Event.sleep 2] ++ r.2.1, uid :: r.2.2)

/-- The `while users and retry_count <= max_retries` loop of
`retry_failed_users` (lines 668-691), with the pre-pass wait of
`120 * retry_count` seconds for passes after the first. Fuelled; fuel
`max_retries + 1` always suffices since `retry_count` grows each pass. -/
def retry_loop (resp : Nat → PlatformResult) (max_retries : Nat) :
    Nat → Nat → TelegramMigrator → List Nat → TelegramMigrator × List Event × List Nat
  | 0, _, s, uids => (s, [], uids)
  | fuel + 1, retry_count, s, uids =>
    if uids ≠ [] ∧ retry_count ≤ max_retries then
      let pre : List Event :=
        if 1 < retry_count then [Event.sleep (120 * retry_count)] else []
      let r0 := retry_pass resp uids s
      let r := retry_loop resp max_retries fuel (retry_count + 1) r0.1 r0.2.2
      (r.1, pre ++ r0.2.1 ++ r.2.1, r.2.2)
    else (s, [], uids)

/-- `TelegramMigrator.retry_failed_users` (lines 658-694). The third
component is the set of users still failing after exhaustion (reported,
not retried further). -/
def TelegramMigrator.retry_failed_users (resp : Nat → PlatformResult)
    (s : TelegramMigrator) (uids : List Nat) (max_retries : Nat) :
    TelegramMigrator × List Event × List Nat :=
  if uids = [] then (s, [], [])
  else retry_loop resp max_retries (max_retries + 1) 1 s uids

/-! ## Account scores

Python stores `score` as an IEEE double. We model it as an exact fraction
`num / den` kept unnormalised, so every operation is primitive integer
arithmetic; every fact proved about scores is an order/bound fact that
holds with ample margin, where exact rational arithmetic and IEEE doubles
agree. All scores the program builds have positive denominators. -/

structure Score where
  num : Int
  den : Int
deriving Repr, DecidableEq

namespace Score

/-- The rational value of a score. -/
def toRat (s : Score) : ℚ := (s.num : ℚ) / (s.den : ℚ)

/-- `a ≤ b` by cross-multiplication (agrees with `toRat` for positive
denominators). -/
def ble (a b : Score) : Bool := decide (a.num * b.den ≤ b.num * a.den)

def mul (a b : Score) : Score := ⟨a.num * b.num, a.den * b.den⟩

def add (a b : Score) : Score := ⟨a.num * b.den + b.num * a.den, a.den * b.den⟩

/-- Python `min(a, b)` (returns the first argument on ties). -/
def pmin (a b : Score) : Score := if ble a b then a else b

/-- Python `max(a, b)` (returns the first argument on ties). -/
def pmax (a b : Score) : Score := if ble b a then a else b

/-- `max(0.1, min(1.0, new_score))`, the clamp at line 961. -/
def clamp (x : Score) : Score := pmax ⟨1, 10⟩ (pmin ⟨1, 1⟩ x)

end Score

/-! ## Multi-account scheduler -/

/-- One `account_performance` record (lines 829-833). -/
structure AccountPerf where
  attempts : Nat
  successes : Nat
  score : Score
deriving Repr, DecidableEq

def AccountPerf.init : AccountPerf := ⟨0, 0, ⟨1, 1⟩⟩

/-- One credential set from the accounts JSON file. -/
structure Account where
  api_id : String
  api_hash : String
  session_name : Option String
deriving Repr, DecidableEq

/-- State of `MultiAccountMigrator`. We model the situation after a fully
successful `start_all` (every configured account connects), where
`active_migrators` coincides with `migrators` and the dictionary keys
align with list indices, which is the behaviour the cited code paths rely
on. `now` models `time.time()`, advanced by every recorded sleep. -/
structure MultiAccountMigrator where
  active_migrators : List TelegramMigrator
  account_cooldowns : List Nat
  account_performance : List AccountPerf
  current_migrator_index : Nat
  stats : Stats
  now : Nat
deriving Repr, DecidableEq

/-- `MultiAccountMigrator.__init__` (lines 802-833): one fresh
`TelegramMigrator` per account (session name defaulting to
`user_migration_{i}`), no cooldowns, every score `1.0`. -/
def MultiAccountMigrator.init (accounts : List Account) : MultiAccountMigrator :=
  { active_migrators := accounts.enum.map (fun p =>
      TelegramMigrator.init (p.2.session_name.getD ("user_migration_" ++ toString p.1)))
    account_cooldowns := List.replicate accounts.length 0
    account_performance := List.replicate accounts.length AccountPerf.init
    current_migrator_index := 0
    stats := Stats.init
    now := 0 }

namespace MultiAccountMigrator

/-- `self.account_cooldowns.get(i, 0)` (line 903). -/
def cooldown_of (m : MultiAccountMigrator) (i : Nat) : Nat :=
  m.account_cooldowns.getD i 0

/-- `self.account_performance.get(i, ...)` with the default used at
lines 910 and 938-939. -/
def perf_of (m : MultiAccountMigrator) (i : Nat) : AccountPerf :=
  m.account_performance.getD i AccountPerf.init

/-- The `available_migrators` list built at lines 899-911: accounts outside
cooldown, in index order, paired with their score. -/
def available (m : MultiAccountMigrator) : List (Nat × Score) :=
  ((List.range m.active_migrators.length).filter
      (fun i => decide (m.cooldown_of i ≤ m.now))).map
    (fun i => (i, (m.perf_of i).score))

end MultiAccountMigrator

/-- Stable insertion for descending sort by score: `x` goes before the
first element it is `≥`; among equal scores earlier elements stay first,
matching Python's stable `list.sort(key=..., reverse=True)` (line 917). -/
def insertByScore (x : Nat × Score) : List (Nat × Score) → List (Nat × Score)
  | [] => [x]
  | y :: ys => if Score.ble y.2 x.2 then x :: y :: ys else y :: insertByScore x ys

def sortByScoreDesc (l : List (Nat × Score)) : List (Nat × Score) :=
  l.foldr insertByScore []

namespace MultiAccountMigrator

/-- `get_best_available_migrator` (lines 896-928): sort available accounts
by score descending, rotate through the top `max(1, n // 2)` using
`current_migrator_index % top_half`, and advance the index modulo the
number of active migrators. -/
def get_best_available_migrator (m : MultiAccountMigrator) :
    Option (Nat × MultiAccountMigrator) :=
  match sortByScoreDesc m.available with
  | [] => none
  | best :: rest =>
    let n := rest.length + 1
    let top_half := max 1 (n / 2)
    let chosen :=
      if 1 < n then
        let position := m.current_migrator_index % top_half
        if position < n then (best :: rest).getD position best else best
      else best
    some (chosen.1,
      { m with current_migrator_index :=
          (m.current_migrator_index + 1) % m.active_migrators.length })

/-- `_update_account_performance` on one record (lines 936-961): bump
attempts/successes, blend `score' = score * 0.7 + (0.3 if success else 0)`,
clamp to `[0.1, 1.0]`. (The Python also computes a `success_rate` local
that is never used.) -/
def update_account_performance (p : AccountPerf) (success : Bool) : AccountPerf :=
  let attempts := p.attempts + 1
  let successes := if success then p.successes + 1 else p.successes
  let new_score :=
    if success then Score.add (Score.mul p.score ⟨7, 10⟩) ⟨3, 10⟩
    else Score.mul p.score ⟨7, 10⟩
  { attempts := attempts, successes := successes, score := Score.clamp new_score }

/-- `_update_account_performance` applied at an account index. -/
def update_perf_at (m : MultiAccountMigrator) (i : Nat) (success : Bool) :
    MultiAccountMigrator :=
  { m with account_performance :=
      m.account_performance.set i (update_account_performance (m.perf_of i) success) }

/-- `_set_account_cooldown` (lines 963-965): `cooldown_until = now + duration`. -/
def set_account_cooldown (m : MultiAccountMigrator) (i : Nat) (duration : Nat) :
    MultiAccountMigrator :=
  { m with account_cooldowns := m.account_cooldowns.set i (m.now + duration) }

end MultiAccountMigrator

/-- `list(migrator.stats["errors"].keys())[-1]` with default `"Unknown"`
(lines 1060-1061): the most recently *first-seen* error category, since
Python dicts are insertion ordered. -/
def last_error (s : TelegramMigrator) : String :=
  match s.stats.errors.getLast? with
  | some p => p.1
  | none => "Unknown"

/-- The delta-based error aggregation at lines 1077-1083. -/
def aggregate_errors (sched ex : List (String × Int)) : List (String × Int) :=
  ex.foldl (fun acc p =>
    let acc := if acc.any (fun q => q.1 = p.1) then acc else acc ++ [(p.1, 0)]
    let cur := ((acc.find? (fun q => q.1 = p.1)).map Prod.snd).getD 0
    let nw := p.2 - cur
    if 0 < nw then
      acc.map (fun q => if q.1 = p.1 then (q.1, q.2 + nw) else q)
    else acc) sched

namespace MultiAccountMigrator

/-- The `while attempts < max_attempts` loop of `add_user_with_fallback`
(lines 1098-1129). The `continue` on the excluded account does not advance
`attempts`, so the loop is fuelled; enough fuel reproduces the Python
behaviour exactly on every terminating run. -/
def fallback_loop (resp : Nat → Nat → PlatformResult) (uid : Nat)
    (exclude_idx : Option Nat) (max_attempts : Nat) :
    Nat → Nat → MultiAccountMigrator → Bool × MultiAccountMigrator × List Event
  | 0, _, m => (false, m, [])
  | fuel + 1, attempts, m =>
    if attempts < max_attempts then
      match m.get_best_available_migrator with
      | none => (false, m, [])
      | some (i, m) =>
        if exclude_idx = some i then
          let m := { m with current_migrator_index :=
            (m.current_migrator_index + 1) % m.active_migrators.length }
          fallback_loop resp uid exclude_idx max_attempts fuel attempts m
        else
          let ex := m.active_migrators.getD i (TelegramMigrator.init "")
          let r0 := TelegramMigrator.add_user (resp i) ex uid
          let m := { m with active_migrators := m.active_migrators.set i r0.2.1
                            now := m.now + elapsed r0.2.2 }
          let m := m.update_perf_at i r0.1.toBool
          if r0.1.toBool then (true, m, Event.attemptOn i :: r0.2.2)
          else
            let m := if last_error r0.2.1 = "Peer Flood Error" then
                m.set_account_cooldown i FLOOD_ERROR_DELAY else m
            let r := fallback_loop resp uid exclude_idx max_attempts fuel (attempts + 1) m
            (r.1, r.2.1, Event.attemptOn i :: r0.2.2 ++ r.2.2)
    else (false, m, [])

/-- `add_user_with_fallback` (lines 1093-1129). -/
def add_user_with_fallback (resp : Nat → Nat → PlatformResult) (fuel uid : Nat)
    (exclude_idx : Option Nat) (m : MultiAccountMigrator) :
    Bool × MultiAccountMigrator × List Event :=
  let max_attempts :=
    m.active_migrators.length - (if exclude_idx.isSome then 1 else 0)
  fallback_loop resp uid exclude_idx max_attempts fuel 0 m

/-- Body of `MultiAccountMigrator.add_user` after an account has been
selected (lines 1049-1091): delegate, update performance, on flood set a
1-hour cooldown and fall back to other accounts, on admin-required halve
the score (unclamped, line 1074), aggregate error deltas. -/
def proceed (resp : Nat → Nat → PlatformResult) (fuel uid i : Nat)
    (m : MultiAccountMigrator) : Bool × MultiAccountMigrator × List Event :=
  let ex := m.active_migrators.getD i (TelegramMigrator.init "")
  let r0 := TelegramMigrator.add_user (resp i) ex uid
  let ex' := r0.2.1
  let m := { m with active_migrators := m.active_migrators.set i ex'
                    now := m.now + elapsed r0.2.2 }
  let m := m.update_perf_at i r0.1.toBool
  if r0.1.toBool then
    let m := { m with stats := { m.stats with
      errors := aggregate_errors m.stats.errors ex'.stats.errors } }
    (true, m, Event.attemptOn i :: r0.2.2)
  else if last_error ex' = "Peer Flood Error" then
    let m := m.set_account_cooldown i FLOOD_ERROR_DELAY
    let r := add_user_with_fallback resp fuel uid (some i) m
    (r.1, r.2.1, Event.attemptOn i :: r0.2.2 ++ r.2.2)
  else
    let halved := { m.perf_of i with score := Score.mul (m.perf_of i).score ⟨1, 2⟩ }
    let m := if last_error ex' = "Admin Privileges Required" then
        { m with account_performance := m.account_performance.set i halved }
      else m
    let m := { m with stats := { m.stats with
      errors := aggregate_errors m.stats.errors ex'.stats.errors } }
    (false, m, Event.attemptOn i :: r0.2.2)

/-- `MultiAccountMigrator.add_user` (lines 1033-1091): pick the best
available account; if all are cooling down, sleep 60 s and retry the
selection once before giving up. -/
def add_user (resp : Nat → Nat → PlatformResult) (fuel : Nat)
    (m : MultiAccountMigrator) (uid : Nat) : Bool × MultiAccountMigrator × List Event :=
  if m.active_migrators = [] then (false, m, [])
  else
    match m.get_best_available_migrator with
    | some (i, m) => proceed resp fuel uid i m
    | none =>
      let m := { m with now := m.now + 60 }
      match m.get_best_available_migrator with
      | none => (false, m, [Event.sleep 60])
      | some (i, m) =>
        let r := proceed resp fuel uid i m
        (r.1, r.2.1, Event.sleep 60 :: r.2.2)

/-- The member-fetch loop of the multi-account `get_chat_members`
(lines 1014-1031): try each active migrator in order until one returns a
non-empty member list, copying that migrator's `skipped` counter into the
scheduler stats. -/
def get_chat_members_go (filter_bots : Bool) (limit : Nat) (raw : List Member) :
    List Nat → MultiAccountMigrator → List Member × MultiAccountMigrator
  | [], m => ([], m)
  | i :: rest, m =>
    let ex := m.active_migrators.getD i (TelegramMigrator.init "")
    let r := TelegramMigrator.get_chat_members filter_bots limit ex raw
    let m := { m with active_migrators := m.active_migrators.set i r.2 }
    if r.1 ≠ [] then
      (r.1, { m with stats := { m.stats with skipped := r.2.stats.skipped } })
    else get_chat_members_go filter_bots limit raw rest m

def get_chat_members (filter_bots : Bool) (limit : Nat)
    (m : MultiAccountMigrator) (raw : List Member) :
    List Member × MultiAccountMigrator :=
  get_chat_members_go filter_bots limit raw (List.range m.active_migrators.length) m

end MultiAccountMigrator

/-! ## The `main` driver (modelled paths) -/

/-- The fresh-start single-account direct-addition path of `main`
(lines 1285-1399, with `--no-resume` semantics: no saved progress):
enumerate, fix `stats.total`, batch-add, then retry the still-unprocessed
members when failures remain and retries are enabled. -/
def main_single_run (resp : Nat → PlatformResult) (raw : List Member)
    (filter_bots : Bool) (limit batch_size batch_delay : Nat) (no_retry : Bool) :
    TelegramMigrator × List Event :=
  let s := TelegramMigrator.init "user_migration"
  let r := TelegramMigrator.get_chat_members filter_bots limit s raw
  let members := r.1
  let s := r.2
  if members = [] then (s, [])
  else
    let s := { s with stats := { s.stats with total := (members.length : Int) } }
    let rb := TelegramMigrator.batch_add_users resp batch_size batch_delay s
      (members.map Member.id)
    let s := rb.1
    if ¬ no_retry ∧ 0 < s.stats.failed then
      let failed := (members.map Member.id).filter
        (fun u => ! decide (u ∈ s.processed_users))
      if failed ≠ [] then
        let r2 := TelegramMigrator.retry_failed_users resp s failed 3
        (r2.1, rb.2 ++ r2.2.1)
      else (s, rb.2)
    else (s, rb.2)

/-- The multi-account path of `main` (lines 1176-1275): initialise from
the accounts file, fetch members, fix `stats.total`, then feed every
member to the scheduler, counting successes and failures. No progress
file is ever loaded or cleared on this path. -/
def main_multi_run (resp : Nat → Nat → PlatformResult) (accounts : List Account)
    (raw : List Member) (filter_bots : Bool) (limit fuel : Nat) :
    MultiAccountMigrator × List Event :=
  let m := MultiAccountMigrator.init accounts
  let r := MultiAccountMigrator.get_chat_members filter_bots limit m raw
  let members := r.1
  let m := r.2
  if members = [] then (m, [])
  else
    let m := { m with stats := { m.stats with total := (members.length : Int) } }
    members.foldl (fun acc mem =>
      let r := MultiAccountMigrator.add_user resp fuel acc.1 mem.id
      let m' := if r.1 then
          { r.2.1 with stats := { r.2.1.stats with success := r.2.1.stats.success + 1 } }
        else
          { r.2.1 with stats := { r.2.1.stats with failed := r.2.1.stats.failed + 1 } }
      (m', acc.2 ++ r.2.2)) (m, [])

/-! ## Derived observations and concrete fixtures -/

/-- The account indices on which an actual add was attempted, in order. -/
def attempted_accounts (evs : List Event) : List Nat :=
  evs.filterMap (fun e => match e with | .attemptOn i => some i | _ => none)

/-- The user ids for which the platform add call was actually issued. -/
def platform_adds (evs : List Event) : List Nat :=
  evs.filterMap (fun e => match e with | .platformAdd u => some u | _ => none)

/-- Events that read or delete the persisted progress record. -/
def progress_read_or_clear : Event → Bool
  | .loadProgress _ => true
  | .removeProgress _ => true
  | _ => false

/-- The operations the program performs on one account's score: recording
an attempt outcome (`_update_account_performance`, lines 936-961), the
admin-required halving (line 1074), a successful connection (line 846,
score reset to `1.0`) and a failed connection (line 849, score set to
`0`). -/
inductive ScoreOp where
  | outcome (success : Bool)
  | admin_halving
  | connect_ok
  | connect_fail
deriving Repr, DecidableEq

def apply_score_op (p : AccountPerf) : ScoreOp → AccountPerf
  | .outcome b => MultiAccountMigrator.update_account_performance p b
  | .admin_halving => { p with score := Score.mul p.score ⟨1, 2⟩ }
  | .connect_ok => { p with score := ⟨1, 1⟩ }
  | .connect_fail => { p with score := ⟨0, 1⟩ }

/-- A three-account scheduler state with distinct scores `0.9, 0.8, 0.7`,
nobody in cooldown. -/
def threeAccounts : MultiAccountMigrator :=
  { active_migrators :=
      [TelegramMigrator.init "user_migration_0", TelegramMigrator.init "user_migration_1",
       TelegramMigrator.init "user_migration_2"]
    account_cooldowns := [0, 0, 0]
    account_performance := [⟨0, 0, ⟨9, 10⟩⟩, ⟨0, 0, ⟨8, 10⟩⟩, ⟨0, 0, ⟨7, 10⟩⟩]
    current_migrator_index := 0
    stats := Stats.init
    now := 0 }

/-- Scheduler state for the flood-failover scenario of §8 of the spec:
three accounts with scores `[0.9, 0.5, 0.5]`. -/
def floodScenario : MultiAccountMigrator :=
  { threeAccounts with
    account_performance := [⟨0, 0, ⟨9, 10⟩⟩, ⟨0, 0, ⟨5, 10⟩⟩, ⟨0, 0, ⟨5, 10⟩⟩] }

/-- Platform behaviour for the flood-failover scenario: account 0 is
flood-blocked, every other account succeeds. -/
def floodResp : Nat → Nat → PlatformResult := fun i _ =>
  if i = 0 then .peer_flood else .ok

/-- Platform behaviour exposing the fallback repetition: account 0 is
flood-blocked, accounts 1 and 2 reject every member for privacy. -/
def floodThenRejectResp : Nat → Nat → PlatformResult := fun i _ =>
  if i = 0 then .peer_flood else .user_privacy_restricted

/-- State for the fallback-repetition counterexample: scores
`[1.0, 1.0, 0.2]`, nobody in cooldown. -/
def fallbackRepetitionState : MultiAccountMigrator :=
  { threeAccounts with
    account_performance := [⟨0, 0, ⟨1, 1⟩⟩, ⟨0, 0, ⟨1, 1⟩⟩, ⟨0, 0, ⟨2, 10⟩⟩] }

/-- Three scheduler calls on a single-account migrator whose platform
answers `ChatAdminRequired` every time (distinct member ids, so the
processed-set short-circuit never fires). -/
def adminHammered : MultiAccountMigrator :=
  let resp : Nat → Nat → PlatformResult := fun _ _ => .chat_admin_required
  let m0 := MultiAccountMigrator.init [⟨"id", "hash", none⟩]
  let m1 := (MultiAccountMigrator.add_user resp 4 m0 1).2.1
  let m2 := (MultiAccountMigrator.add_user resp 4 m1 2).2.1
  (MultiAccountMigrator.add_user resp 4 m2 3).2.1

/-- A source-chat listing with one bot and one ordinary member. -/
def botAndHuman : List Member :=
  [⟨1, true, false, false⟩, ⟨2, false, false, false⟩]

/-! # Theorems

## C1 : idempotence of `add_user` over processed members -/

/-- **C1.** For every member whose id is already in `processed_users`, a
further `add_user` call returns the `AlreadyProcessed` outcome as a
no-op: the event trace is empty (no platform call, no save, no sleep) and
the whole state — stats and `processed_users` included — is unchanged. -/
theorem c1_add_user_idempotent (resp : Nat → PlatformResult)
    (s : TelegramMigrator) (uid : Nat) (h : uid ∈ s.processed_users) :
    TelegramMigrator.add_user resp s uid = (.alreadyProcessed, s, []) := by
  simp [TelegramMigrator.add_user, h]

/-- Witness for C1 at a concrete processed member. -/
theorem c1_add_user_idempotent_witness :
    7 ∈ ({ TelegramMigrator.init "s" with processed_users := [7] }).processed_users ∧
    TelegramMigrator.add_user (fun _ => .ok)
        { TelegramMigrator.init "s" with processed_users := [7] } 7 =
      (.alreadyProcessed, { TelegramMigrator.init "s" with processed_users := [7] }, []) :=
  ⟨by decide, c1_add_user_idempotent _ _ _ (by decide)⟩

/-! ## C6 : rate-limit handling in `add_user` -/

/-- **C6.** When the platform signals a rate limit with wait `d`,
`add_user` saves progress and then sleeps exactly `d` seconds (trace
`[platformAdd, saveProgress, sleep d]`), returns the non-success
`RateLimited d` outcome with the state — in particular
`processed_users` — unchanged, and the caller's accounting step then
increments `stats.failed` by one. -/
theorem c6_rate_limit (resp : Nat → PlatformResult) (s : TelegramMigrator)
    (uid d : Nat) (h1 : uid ∉ s.processed_users) (h2 : s.dry_run = false)
    (h3 : resp uid = .flood_wait d) :
    (TelegramMigrator.add_user resp s uid).1 = .rateLimited d ∧
    ((TelegramMigrator.add_user resp s uid).1).toBool = false ∧
    (TelegramMigrator.add_user resp s uid).2.1 = s ∧
    (TelegramMigrator.add_user resp s uid).2.2 =
      [.platformAdd uid, .saveProgress s.progress_file, .sleep d] ∧
    (record_result (TelegramMigrator.add_user resp s uid).1
        (TelegramMigrator.add_user resp s uid).2.1).stats.failed
      = s.stats.failed + 1 := by
  simp [TelegramMigrator.add_user, h1, h2, h3, record_result, AddOutcome.toBool]

/-- Witness for C6: the 30-second scenario of §8 of the spec. -/
theorem c6_rate_limit_witness :
    9 ∉ (TelegramMigrator.init "user_migration").processed_users ∧
    (TelegramMigrator.add_user (fun _ => .flood_wait 30)
        (TelegramMigrator.init "user_migration") 9).1 = .rateLimited 30 :=
  ⟨by decide,
   (c6_rate_limit (fun _ => .flood_wait 30) (TelegramMigrator.init "user_migration")
     9 30 (by decide) rfl rfl).1⟩

/-! ## C8 : retry backoff schedule -/

/-- **C8 (code bug).** Concrete run: one member rejected permanently on
the first retry pass, `max_retries = 3`. The wait inserted between the
first and second pass is `240` seconds (`120 * retry_count` with
`retry_count = 2`), and no `120`-second wait occurs anywhere — whereas
the claim (and the source's own `# 2, 4, 6 minutes` comment at line 671)
prescribe waits of 120 s, 240 s, 360 s, … -/
theorem c8_retry_backoff_bug :
    (TelegramMigrator.retry_failed_users (fun _ => .user_privacy_restricted)
        (TelegramMigrator.init "user_migration") [5] 3).2.1 =
      [.platformAdd 5, .sleep 2, .sleep 240, .sleep 2] ∧
    Event.sleep 120 ∉
      (TelegramMigrator.retry_failed_users (fun _ => .user_privacy_restricted)
        (TelegramMigrator.init "user_migration") [5] 3).2.1 := by
  decide

/-! ## C2 : stat conservation -/

/-- **C2 (counterexample).** A fresh single-account run over one bot
(skipped during enumeration) and one ordinary member (added): the final
stats are `total = 1, success = 1, failed = 0, skipped = 1`, so
`success + failed + skipped = 2 > 1 = total`, refuting the claimed
inequality. -/
theorem c2_counterexample :
    ¬ ((main_single_run (fun _ => .ok) botAndHuman true 0 5 30 true).1.stats.success
        + (main_single_run (fun _ => .ok) botAndHuman true 0 5 30 true).1.stats.failed
        + (main_single_run (fun _ => .ok) botAndHuman true 0 5 30 true).1.stats.skipped
       ≤ (main_single_run (fun _ => .ok) botAndHuman true 0 5 30 true).1.stats.total) := by
  decide

/-! ## C3 : score bounds -/

/-- **C3 (counterexample).** Three scheduler calls on one account whose
platform always answers `ChatAdminRequired` drive that account's score to
`0.05 < 0.1`: each call decays the score through the clamped blend and
then halves it *without* re-clamping (line 1074), so after the third call
the score sits below the claimed `0.1` floor. -/
theorem c3_counterexample :
    ¬ ((1 : ℚ) / 10 ≤ (adminHammered.perf_of 0).score.toRat) := by
  have h : (adminHammered.perf_of 0).score = ⟨1, 20⟩ := by decide
  rw [h]
  norm_num [Score.toRat]

/-- Auxiliary: the clamp `max(0.1, min(1.0, x))` lands in `[0.1, 1]` and
keeps the denominator positive, for any input with positive denominator. -/
theorem Score.clamp_bounds (x : Score) (h : 0 < x.den) :
    0 < (Score.clamp x).den ∧ (1 : ℚ) / 10 ≤ (Score.clamp x).toRat ∧
      (Score.clamp x).toRat ≤ 1 := by
  have key : ∀ y : Score, 0 < y.den → y.toRat ≤ 1 →
      0 < (Score.pmax ⟨1, 10⟩ y).den ∧ (1 : ℚ) / 10 ≤ (Score.pmax ⟨1, 10⟩ y).toRat ∧
        (Score.pmax ⟨1, 10⟩ y).toRat ≤ 1 := by
    intro y hy hy1
    cases hble : Score.ble y ⟨1, 10⟩ with
    | true =>
      simp only [Score.pmax, hble, if_true]
      refine ⟨by norm_num, ?_, ?_⟩ <;> norm_num [Score.toRat]
    | false =>
      simp only [Score.pmax, hble, Bool.false_eq_true, if_false]
      rw [Score.ble, decide_eq_false_iff_not] at hble
      refine ⟨hy, ?_, hy1⟩
      rw [Score.toRat, div_le_div_iff₀ (by norm_num) (by exact_mod_cast hy), one_mul]
      have hd : y.den ≤ y.num * 10 := by simp at hble; omega
      exact_mod_cast hd
  have hmin : 0 < (Score.pmin ⟨1, 1⟩ x).den ∧ (Score.pmin ⟨1, 1⟩ x).toRat ≤ 1 := by
    cases hble : Score.ble ⟨1, 1⟩ x with
    | true =>
      simp only [Score.pmin, hble, if_true]
      exact ⟨by norm_num, by norm_num [Score.toRat]⟩
    | false =>
      simp only [Score.pmin, hble, Bool.false_eq_true, if_false]
      rw [Score.ble, decide_eq_false_iff_not] at hble
      refine ⟨h, ?_⟩
      rw [Score.toRat, div_le_one (by exact_mod_cast h)]
      have hd : x.num ≤ x.den := by simp at hble; omega
      exact_mod_cast hd
  exact key _ hmin.1 hmin.2

/-- Auxiliary: one `_update_account_performance` step keeps the score in
`[0.1, 1]` whatever the previous score was (the blend is followed by the
clamp), and keeps the denominator positive. -/
theorem update_account_performance_bounds (p : AccountPerf) (b : Bool)
    (h : 0 < p.score.den) :
    0 < (MultiAccountMigrator.update_account_performance p b).score.den ∧
    (1 : ℚ) / 10 ≤ (MultiAccountMigrator.update_account_performance p b).score.toRat ∧
    (MultiAccountMigrator.update_account_performance p b).score.toRat ≤ 1 := by
  unfold MultiAccountMigrator.update_account_performance
  cases b
  · simpa using Score.clamp_bounds (Score.mul p.score ⟨7, 10⟩)
      (by simp [Score.mul]; positivity)
  · simpa using Score.clamp_bounds (Score.add (Score.mul p.score ⟨7, 10⟩) ⟨3, 10⟩)
      (by simp [Score.add, Score.mul]; positivity)

/-- **C3 (amended).** For every sequence of outcomes fed to
`_update_account_performance` alone, the score stays within `[0.1, 1.0]`
(given it starts there with a positive denominator). The original claim
fails only because the admin-required halving (line 1074) and the
failed-start marking (line 849) bypass the clamp. -/
theorem c3_amended_record_outcome_bounds (p : AccountPerf) (ops : List Bool)
    (hden : 0 < p.score.den)
    (hlo : (1 : ℚ) / 10 ≤ p.score.toRat) (hhi : p.score.toRat ≤ 1) :
    (1 : ℚ) / 10 ≤
      (ops.foldl MultiAccountMigrator.update_account_performance p).score.toRat ∧
    (ops.foldl MultiAccountMigrator.update_account_performance p).score.toRat ≤ 1 := by
  induction ops generalizing p with
  | nil => exact ⟨hlo, hhi⟩
  | cons b rest ih =>
    simp only [List.foldl_cons]
    have hb := update_account_performance_bounds p b hden
    exact ih _ hb.1 hb.2.1 hb.2.2

/-- Witness for the amended C3 at a concrete account and outcome list. -/
theorem c3_amended_record_outcome_bounds_witness :
    (0 < AccountPerf.init.score.den) ∧
    (1 : ℚ) / 10 ≤
      (([true, false, false] : List Bool).foldl
        MultiAccountMigrator.update_account_performance AccountPerf.init).score.toRat :=
  ⟨by decide,
   (c3_amended_record_outcome_bounds AccountPerf.init [true, false, false] (by decide)
      (by norm_num [Score.toRat, AccountPerf.init])
      (by norm_num [Score.toRat, AccountPerf.init])).1⟩

/-! ## C4 and C5 : account selection -/

/-- Inserting keeps the length. -/
theorem length_insertByScore (x : Nat × Score) (l : List (Nat × Score)) :
    (insertByScore x l).length = l.length + 1 := by
  induction l with
  | nil => rfl
  | cons y ys ih =>
    rw [insertByScore]
    split
    · rfl
    · simp [ih]

/-- Sorting keeps the length. -/
theorem length_sortByScoreDesc (l : List (Nat × Score)) :
    (sortByScoreDesc l).length = l.length := by
  induction l with
  | nil => rfl
  | cons x xs ih =>
    show (insertByScore x (sortByScoreDesc xs)).length = _
    rw [length_insertByScore, ih, List.length_cons]

/-- Membership in an insertion. -/
theorem mem_insertByScore {a x : Nat × Score} {l : List (Nat × Score)} :
    a ∈ insertByScore x l ↔ a = x ∨ a ∈ l := by
  induction l with
  | nil => simp [insertByScore]
  | cons y ys ih =>
    rw [insertByScore]
    split
    · simp
    · simp only [List.mem_cons, ih]
      tauto

/-- Sorting keeps the members. -/
theorem mem_sortByScoreDesc {a : Nat × Score} {l : List (Nat × Score)} :
    a ∈ sortByScoreDesc l ↔ a ∈ l := by
  induction l with
  | nil => simp [sortByScoreDesc]
  | cons x xs ih =>
    show a ∈ insertByScore x (sortByScoreDesc xs) ↔ _
    rw [mem_insertByScore, ih]
    simp

/-- `(x :: l).getD i x` is always an element of `x :: l`. -/
theorem getD_cons_self_mem {α : Type} (x : α) (l : List α) (i : Nat) :
    (x :: l).getD i x ∈ x :: l := by
  by_cases hi : i < (x :: l).length
  · rw [List.getD_eq_getElem _ _ hi]
    exact List.getElem_mem _
  · rw [List.getD_eq_default _ _ (le_of_not_lt hi)]
    exact List.mem_cons_self _ _

/-- Any index `get_best_available_migrator` returns is drawn from the
`available` candidate list. -/
theorem get_best_mem_available (m : MultiAccountMigrator) (i : Nat)
    (m' : MultiAccountMigrator)
    (hret : m.get_best_available_migrator = some (i, m')) :
    ∃ sc, (i, sc) ∈ m.available := by
  unfold MultiAccountMigrator.get_best_available_migrator at hret
  cases hs : sortByScoreDesc m.available with
  | nil => rw [hs] at hret; exact absurd hret (by simp)
  | cons best rest =>
    rw [hs] at hret
    have key : ∀ c : Nat × Score, c ∈ best :: rest → c.1 = i → ∃ sc, (i, sc) ∈ m.available := by
      intro c hc hci
      refine ⟨c.2, ?_⟩
      have hmem : c ∈ sortByScoreDesc m.available := hs ▸ hc
      have := mem_sortByScoreDesc.mp hmem
      rwa [← hci, Prod.mk.eta]
    simp only [Option.some.injEq, Prod.mk.injEq] at hret
    split at hret
    · split at hret
      · exact key _ (getD_cons_self_mem best rest _) hret.1
      · exact key _ (List.mem_cons_self _ _) hret.1
    · exact key _ (List.mem_cons_self _ _) hret.1

/-- **C5.** Cooldown exclusion: whenever `get_best_available_migrator`
returns an account, that account's `cooldown_until` is `≤ now` (an
account still cooling down is never returned, whatever its score); and if
every active account is in cooldown, the selection returns "none
available". -/
theorem c5_cooldown_exclusion (m : MultiAccountMigrator) :
    (∀ i m', m.get_best_available_migrator = some (i, m') →
       m.cooldown_of i ≤ m.now) ∧
    ((∀ i, i < m.active_migrators.length → m.now < m.cooldown_of i) →
       m.get_best_available_migrator = none) := by
  constructor
  · intro i m' hret
    obtain ⟨sc, hmem⟩ := get_best_mem_available m i m' hret
    unfold MultiAccountMigrator.available at hmem
    obtain ⟨j, hj, hji⟩ := List.mem_map.mp hmem
    obtain ⟨-, hpred⟩ := List.mem_filter.mp hj
    have hij : j = i := congrArg Prod.fst hji
    rw [hij] at hpred
    exact of_decide_eq_true hpred
  · intro hall
    have hav : m.available = [] := by
      unfold MultiAccountMigrator.available
      rw [List.map_eq_nil_iff, List.filter_eq_nil_iff]
      intro j hj
      have := hall j (List.mem_range.mp hj)
      simp only [decide_eq_true_eq]
      omega
    unfold MultiAccountMigrator.get_best_available_migrator
    rw [hav]
    rfl

/-- Witness for C5: with all three accounts cooling down the pick is
`none`; with no cooldowns the pick returns account 0, whose cooldown
deadline is indeed `≤ now`. -/
theorem c5_cooldown_exclusion_witness :
    (MultiAccountMigrator.get_best_available_migrator
        { threeAccounts with account_cooldowns := [5, 5, 5] } = none) ∧
    threeAccounts.cooldown_of 0 ≤ threeAccounts.now :=
  ⟨(c5_cooldown_exclusion _).2 (by decide),
   (c5_cooldown_exclusion threeAccounts).1 0
     { threeAccounts with current_migrator_index := 1 } (by decide)⟩

/-- **C4 (counterexample).** With three available accounts (scores
`0.9, 0.8, 0.7`, nobody cooling down) the code's eligible pool has size
`max 1 (3 / 2) = 1`, not the claimed "top half rounded up" `(3 + 1) / 2
= 2`: two successive calls both return the single top scorer, account 0,
instead of cycling round-robin through a two-account pool. -/
theorem c4_counterexample :
    (threeAccounts.get_best_available_migrator).map Prod.fst = some 0 ∧
    ((threeAccounts.get_best_available_migrator).bind
        (fun p => p.2.get_best_available_migrator)).map Prod.fst = some 0 ∧
    ¬ (max 1 (3 / 2) = (3 + 1) / 2) := by
  decide

/-- **C4 (amended).** Among accounts outside cooldown sorted stably by
descending score, the eligible pool is the top half rounded *down*
(minimum 1), i.e. `max 1 (n / 2)`; the pick is the element at position
`current_migrator_index % max 1 (n / 2)` of the sorted list, and the call
counter then advances by one modulo the number of *active* accounts (not
modulo the pool size). -/
theorem c4_amended_selection (m : MultiAccountMigrator) (h : m.available ≠ []) :
    (m.get_best_available_migrator).map Prod.fst =
      some (((sortByScoreDesc m.available).getD
        (m.current_migrator_index % max 1 (m.available.length / 2)) (0, ⟨0, 1⟩)).1) ∧
    (m.get_best_available_migrator).map (fun p => p.2) =
      some { m with current_migrator_index :=
        (m.current_migrator_index + 1) % m.active_migrators.length } := by
  have hlen := length_sortByScoreDesc m.available
  unfold MultiAccountMigrator.get_best_available_migrator
  cases hs : sortByScoreDesc m.available with
  | nil =>
    exact absurd (List.length_eq_zero.mp (by rw [← hlen, hs, List.length_nil])) h
  | cons best rest =>
    have hn : m.available.length = rest.length + 1 := by
      rw [← hlen, hs, List.length_cons]
    rw [hn]
    dsimp only
    cases rest with
    | nil => simp [Nat.mod_one]
    | cons r rs =>
      have hth : max 1 ((rs.length + 1 + 1) / 2) ≤ rs.length + 1 + 1 := by omega
      have hpos : m.current_migrator_index % max 1 ((rs.length + 1 + 1) / 2)
          < rs.length + 1 + 1 :=
        lt_of_lt_of_le (Nat.mod_lt _ (lt_of_lt_of_le Nat.one_pos (le_max_left _ _))) hth
      constructor
      · simp only [List.length_cons, Option.map_some, Option.some.injEq]
        rw [if_pos (by omega), if_pos (by simpa using hpos)]
        rw [List.getD_eq_getElem _ _ (by simpa using hpos),
            List.getD_eq_getElem _ _ (by simpa using hpos)]
        rfl
      · simp

/-- Witness for the amended C4 at the concrete three-account state. -/
theorem c4_amended_selection_witness :
    threeAccounts.available ≠ [] ∧
    (threeAccounts.get_best_available_migrator).map Prod.fst =
      some (((sortByScoreDesc threeAccounts.available).getD
        (threeAccounts.current_migrator_index
          % max 1 (threeAccounts.available.length / 2)) (0, ⟨0, 1⟩)).1) :=
  ⟨by decide, (c4_amended_selection threeAccounts (by decide)).1⟩

/-! ## C9 : phantom success in retry passes -/

/-- **C9.** During `retry_failed_users`, a member whose attempt ends in a
permanent rejection (here: privacy-restricted) is marked processed yet
kept in the failure list; on the next pass the already-processed
short-circuit of `add_user` returns `True`, so `stats.success` is
incremented and `stats.failed` decremented even though the only platform
add call issued for the member (the single entry of `platform_adds`) was
rejected, never successful. -/
theorem c9_retry_phantom_success (resp : Nat → PlatformResult)
    (s : TelegramMigrator) (uid : Nat) (k : Nat)
    (h1 : uid ∉ s.processed_users) (h2 : s.dry_run = false)
    (h3 : resp uid = .user_privacy_restricted) :
    (TelegramMigrator.retry_failed_users resp s [uid] (k + 2)).1.stats.success
        = s.stats.success + 1 ∧
    (TelegramMigrator.retry_failed_users resp s [uid] (k + 2)).1.stats.failed
        = s.stats.failed - 1 ∧
    uid ∈ (TelegramMigrator.retry_failed_users resp s [uid] (k + 2)).1.processed_users ∧
    platform_adds (TelegramMigrator.retry_failed_users resp s [uid] (k + 2)).2.1
        = [uid] ∧
    resp uid ≠ .ok := by
  have e1 : TelegramMigrator.add_user resp s uid =
      rejected_case s uid "Privacy Restricted" := by
    unfold TelegramMigrator.add_user
    rw [if_neg h1, if_neg (by simp [h2]), h3]
  unfold TelegramMigrator.retry_failed_users
  rw [if_neg (by simp)]
  simp only [retry_loop, retry_pass, e1, rejected_case, AddOutcome.toBool]
  simp [TelegramMigrator.add_user, AddOutcome.toBool, platform_adds, retry_loop,
    retry_pass, h3]

/-- Witness for C9 at a concrete member and retry budget. -/
theorem c9_retry_phantom_success_witness :
    5 ∉ (TelegramMigrator.init "user_migration").processed_users ∧
    (TelegramMigrator.retry_failed_users (fun _ => .user_privacy_restricted)
        (TelegramMigrator.init "user_migration") [5] (1 + 2)).1.stats.success
      = (TelegramMigrator.init "user_migration").stats.success + 1 :=
  ⟨by decide,
   (c9_retry_phantom_success (fun _ => .user_privacy_restricted)
      (TelegramMigrator.init "user_migration") 5 1 (by decide) rfl rfl).1⟩

/-! ## C7 : flood failover -/

/-- **C7 (counterexample).** Scores `[1.0, 1.0, 0.2]`, account 0 globally
flooded, accounts 1 and 2 rejecting for privacy: within one scheduler
call the member is attempted on accounts `[0, 1, 1]` — account 1 is tried
*twice* (the second attempt hitting the already-processed short-circuit)
and account 2 is never tried, refuting "trying each remaining active
account at most once". -/
theorem c7_counterexample :
    attempted_accounts (MultiAccountMigrator.add_user floodThenRejectResp 6
        fallbackRepetitionState 42).2.2 = [0, 1, 1] ∧
    ¬ ((attempted_accounts (MultiAccountMigrator.add_user floodThenRejectResp 6
        fallbackRepetitionState 42).2.2).count 1 ≤ 1) := by
  decide

/-- `add_user` on a single executor never emits an account-attempt
marker; those are produced only by the scheduler layers. -/
theorem add_user_no_attemptOn (resp : Nat → PlatformResult) (s : TelegramMigrator)
    (uid : Nat) :
    attempted_accounts (TelegramMigrator.add_user resp s uid).2.2 = [] := by
  unfold TelegramMigrator.add_user
  split
  · rfl
  split
  · rfl
  cases resp uid <;> simp [rejected_case, attempted_accounts]

/-- `attempted_accounts` computation rules. -/
theorem attempted_accounts_cons_attemptOn (i : Nat) (evs : List Event) :
    attempted_accounts (Event.attemptOn i :: evs) = i :: attempted_accounts evs := rfl

theorem attempted_accounts_append (l1 l2 : List Event) :
    attempted_accounts (l1 ++ l2)
      = attempted_accounts l1 ++ attempted_accounts l2 := by
  simp [attempted_accounts, List.filterMap_append]

/-- The fallback loop never attempts the excluded account. -/
theorem fallback_loop_excludes (resp : Nat → Nat → PlatformResult) (uid : Nat)
    (e max_attempts : Nat) :
    ∀ fuel attempts m,
      e ∉ attempted_accounts
        (MultiAccountMigrator.fallback_loop resp uid (some e) max_attempts
          fuel attempts m).2.2 := by
  intro fuel
  induction fuel with
  | zero =>
    intro attempts m
    simp [MultiAccountMigrator.fallback_loop, attempted_accounts]
  | succ fuel ih =>
    intro attempts m
    rw [MultiAccountMigrator.fallback_loop]
    split
    · cases hp : m.get_best_available_migrator with
      | none => simp [attempted_accounts]
      | some p =>
        obtain ⟨i, m1⟩ := p
        simp only
        split
        · exact ih _ _
        · rename_i hne
          have hie : e ≠ i := fun hh => hne (by rw [hh])
          split
          · rw [attempted_accounts_cons_attemptOn, add_user_no_attemptOn]
            simp [hie]
          · dsimp only
            rw [attempted_accounts_append, attempted_accounts_cons_attemptOn,
              add_user_no_attemptOn]
            simp only [List.nil_append, List.cons_append, List.mem_cons,
              List.mem_append, not_or]
            exact ⟨hie, ih _ _⟩
    · simp [attempted_accounts]

/-- **C7 (amended).** On a peer-flood failure the scheduler sets
`cooldown_until = now + 3600` on the failed account (`now` taken after the
executor's one-hour flood sleep, here `3600 + 3600`) and retries the same
member through the fallback, which never attempts the excluded account
and makes at most `active − 1` further attempts, each chosen by
re-running the best-available pick (so one account may be retried more
than once while another is skipped). In the `[0.9, 0.5, 0.5]` scenario
account 0 floods, is cooled down for 3600 s, and the member is retried on
account 1 and succeeds within the same scheduler call. -/
theorem c7_amended_flood_failover :
    ((MultiAccountMigrator.add_user floodResp 6 floodScenario 42).1 = true ∧
     attempted_accounts
         (MultiAccountMigrator.add_user floodResp 6 floodScenario 42).2.2 = [0, 1] ∧
     (MultiAccountMigrator.add_user floodResp 6 floodScenario 42).2.1.cooldown_of 0
       = 3600 + FLOOD_ERROR_DELAY ∧
     42 ∈ ((MultiAccountMigrator.add_user floodResp 6 floodScenario
         42).2.1.active_migrators.getD 1 (TelegramMigrator.init "")).processed_users) ∧
    (∀ resp uid e ma fuel attempts m,
      e ∉ attempted_accounts
        (MultiAccountMigrator.fallback_loop resp uid (some e) ma fuel attempts m).2.2) :=
  ⟨by decide,
   fun resp uid e ma fuel attempts m => fallback_loop_excludes resp uid e ma fuel attempts m⟩

/-! ## C2 (amended) : stat conservation lemma chain -/

/-- `add_user` itself never touches the success/failed/total counters or
the exit flag (the caller does the counting). -/
theorem add_user_preserves (resp : Nat → PlatformResult) (s : TelegramMigrator)
    (uid : Nat) :
    (TelegramMigrator.add_user resp s uid).2.1.stats.success = s.stats.success ∧
    (TelegramMigrator.add_user resp s uid).2.1.stats.failed = s.stats.failed ∧
    (TelegramMigrator.add_user resp s uid).2.1.stats.total = s.stats.total ∧
    (TelegramMigrator.add_user resp s uid).2.1.should_exit = s.should_exit := by
  unfold TelegramMigrator.add_user
  split
  · exact ⟨rfl, rfl, rfl, rfl⟩
  split
  · exact ⟨rfl, rfl, rfl, rfl⟩
  cases resp uid <;> simp [rejected_case]

/-- The caller's accounting step adds exactly one to
`success + failed` and touches neither `total` nor the exit flag. -/
theorem record_result_effect (out : AddOutcome) (s : TelegramMigrator) :
    (record_result out s).stats.success + (record_result out s).stats.failed
      = s.stats.success + s.stats.failed + 1 ∧
    (record_result out s).stats.total = s.stats.total ∧
    (record_result out s).should_exit = s.should_exit := by
  unfold record_result
  split
  · exact ⟨by dsimp only; omega, rfl, rfl⟩
  · exact ⟨by dsimp only; omega, rfl, rfl⟩

/-- Draining one chunk adds exactly its length to `success + failed`
(given the exit flag is down, the early-exit branches never fire). -/
theorem process_chunk_effect (resp : Nat → PlatformResult) :
    ∀ (chunk : List Nat) (s : TelegramMigrator), s.should_exit = false →
      (process_chunk resp chunk s).1.stats.success
          + (process_chunk resp chunk s).1.stats.failed
        = s.stats.success + s.stats.failed + (chunk.length : Int) ∧
      (process_chunk resp chunk s).1.stats.total = s.stats.total ∧
      (process_chunk resp chunk s).1.should_exit = false ∧
      (process_chunk resp chunk s).2.2 = false := by
  intro chunk
  induction chunk with
  | nil => intro s hs; simp [process_chunk, hs]
  | cons uid rest ih =>
    intro s hs
    have hadd := add_user_preserves resp s uid
    have hrec := record_result_effect (TelegramMigrator.add_user resp s uid).1
      (TelegramMigrator.add_user resp s uid).2.1
    have hse : (record_result (TelegramMigrator.add_user resp s uid).1
        (TelegramMigrator.add_user resp s uid).2.1).should_exit = false := by
      rw [hrec.2.2, hadd.2.2.2, hs]
    have hrest := ih (record_result (TelegramMigrator.add_user resp s uid).1
      (TelegramMigrator.add_user resp s uid).2.1) hse
    rw [process_chunk]
    simp only [hse, Bool.false_eq_true, if_false]
    refine ⟨?_, ?_, hrest.2.2.1, hrest.2.2.2⟩
    · rw [hrest.1, hrec.1, hadd.1, hadd.2.1]
      simp only [List.length_cons]
      push_cast
      ring
    · rw [hrest.2.1, hrec.2.1, hadd.2.2.1]

/-- The chunk loop drains every chunk when the exit flag stays down,
adding the summed chunk lengths to `success + failed`. -/
theorem batch_add_users_go_effect (resp : Nat → PlatformResult)
    (delay total_chunks : Nat) :
    ∀ (cs : List (List Nat)) (i : Nat) (s : TelegramMigrator),
      s.should_exit = false →
      (batch_add_users_go resp delay total_chunks cs i s).1.stats.success
          + (batch_add_users_go resp delay total_chunks cs i s).1.stats.failed
        = s.stats.success + s.stats.failed + ((cs.map List.length).sum : Int) ∧
      (batch_add_users_go resp delay total_chunks cs i s).1.stats.total
        = s.stats.total ∧
      (batch_add_users_go resp delay total_chunks cs i s).1.should_exit = false := by
  intro cs
  induction cs with
  | nil => intro i s hs; simp [batch_add_users_go, hs]
  | cons chunk rest ih =>
    intro i s hs
    have hchunk := process_chunk_effect resp chunk s hs
    have hrest := ih (i + 1) (process_chunk resp chunk s).1 hchunk.2.2.1
    rw [batch_add_users_go]
    simp only [hs, Bool.false_eq_true, if_false, hchunk.2.2.2]
    refine ⟨?_, ?_, hrest.2.2⟩
    · rw [hrest.1, hchunk.1]
      simp only [List.map_cons, List.sum_cons]
      push_cast
      ring
    · rw [hrest.2.1, hchunk.2.1]

/-- With a positive batch size, chunking partitions the list: the chunk
lengths sum back to the list length. -/
theorem chunks_length_sum (bs : Nat) (hbs : 1 ≤ bs) (l : List Nat) :
    ((chunks bs l).map List.length).sum = l.length := by
  suffices h : ∀ (fuel : Nat) (l : List Nat), l.length ≤ fuel →
      ((chunks_go bs fuel l).map List.length).sum = l.length from
    h l.length l le_rfl
  intro fuel
  induction fuel with
  | zero =>
    intro l hl
    have : l = [] := List.eq_nil_of_length_eq_zero (by omega)
    subst this
    rfl
  | succ fuel ih =>
    intro l hl
    cases l with
    | nil => rfl
    | cons x xs =>
      rw [show chunks_go bs (fuel + 1) (x :: xs)
          = (x :: xs).take bs :: chunks_go bs fuel ((x :: xs).drop bs) from rfl]
      simp only [List.map_cons, List.sum_cons]
      rw [ih ((x :: xs).drop bs)
        (by simp only [List.length_drop, List.length_cons] at hl ⊢; omega)]
      simp only [List.length_take, List.length_drop, List.length_cons]
      omega

/-- `batch_add_users` on a fresh (nothing-processed, no exit requested)
migrator adds exactly one success-or-failure per submitted member. -/
theorem batch_add_users_effect (resp : Nat → PlatformResult) (bs delay : Nat)
    (hbs : 1 ≤ bs) (s : TelegramMigrator) (uids : List Nat)
    (hproc : s.processed_users = []) (hexit : s.should_exit = false) :
    (TelegramMigrator.batch_add_users resp bs delay s uids).1.stats.success
        + (TelegramMigrator.batch_add_users resp bs delay s uids).1.stats.failed
      = s.stats.success + s.stats.failed + (uids.length : Int) ∧
    (TelegramMigrator.batch_add_users resp bs delay s uids).1.stats.total
      = s.stats.total := by
  unfold TelegramMigrator.batch_add_users
  by_cases h0 : uids = []
  · subst h0; simp
  · rw [if_neg h0, hproc]
    simp only [ne_eq, not_true_eq_false, if_false, if_neg h0]
    have hgo := batch_add_users_go_effect resp delay (chunks bs uids).length
      (chunks bs uids) 1 s hexit
    rw [hgo.1, hgo.2.1, chunks_length_sum bs hbs uids]
    exact ⟨rfl, rfl⟩

/-- A retry pass moves counts between `failed` and `success` but keeps
their sum and `total` unchanged. -/
theorem retry_pass_effect (resp : Nat → PlatformResult) :
    ∀ (uids : List Nat) (s : TelegramMigrator),
      (retry_pass resp uids s).1.stats.success
          + (retry_pass resp uids s).1.stats.failed
        = s.stats.success + s.stats.failed ∧
      (retry_pass resp uids s).1.stats.total = s.stats.total := by
  intro uids
  induction uids with
  | nil => intro s; simp [retry_pass]
  | cons uid rest ih =>
    intro s
    have hadd := add_user_preserves resp s uid
    rw [retry_pass]
    split
    · have := ih { (TelegramMigrator.add_user resp s uid).2.1 with
        stats := { (TelegramMigrator.add_user resp s uid).2.1.stats with
          success := (TelegramMigrator.add_user resp s uid).2.1.stats.success + 1,
          failed := (TelegramMigrator.add_user resp s uid).2.1.stats.failed - 1 } }
      refine ⟨?_, ?_⟩
      · rw [this.1]; dsimp only; rw [hadd.1] at *; omega
      · rw [this.2]; dsimp only; exact hadd.2.2.1
    · have := ih (TelegramMigrator.add_user resp s uid).2.1
      exact ⟨by rw [this.1, hadd.1, hadd.2.1], by rw [this.2, hadd.2.2.1]⟩

/-- The whole retry loop keeps `success + failed` and `total` unchanged. -/
theorem retry_loop_effect (resp : Nat → PlatformResult) (mr : Nat) :
    ∀ (fuel rc : Nat) (s : TelegramMigrator) (uids : List Nat),
      (retry_loop resp mr fuel rc s uids).1.stats.success
          + (retry_loop resp mr fuel rc s uids).1.stats.failed
        = s.stats.success + s.stats.failed ∧
      (retry_loop resp mr fuel rc s uids).1.stats.total = s.stats.total := by
  intro fuel
  induction fuel with
  | zero => intro rc s uids; simp [retry_loop]
  | succ fuel ih =>
    intro rc s uids
    rw [retry_loop]
    split
    · have hpass := retry_pass_effect resp uids s
      have hrest := ih (rc + 1) (retry_pass resp uids s).1 (retry_pass resp uids s).2.2
      exact ⟨by rw [hrest.1, hpass.1], by rw [hrest.2, hpass.2]⟩
    · exact ⟨rfl, rfl⟩

/-- `retry_failed_users` keeps `success + failed` and `total` unchanged. -/
theorem retry_failed_users_effect (resp : Nat → PlatformResult)
    (s : TelegramMigrator) (uids : List Nat) (mr : Nat) :
    (TelegramMigrator.retry_failed_users resp s uids mr).1.stats.success
        + (TelegramMigrator.retry_failed_users resp s uids mr).1.stats.failed
      = s.stats.success + s.stats.failed ∧
    (TelegramMigrator.retry_failed_users resp s uids mr).1.stats.total
      = s.stats.total := by
  unfold TelegramMigrator.retry_failed_users
  split
  · exact ⟨rfl, rfl⟩
  · exact retry_loop_effect resp mr (mr + 1) 1 s uids

/-- **C2 (amended).** Once `stats.total` is fixed after enumeration, each
drained member adds exactly one to `success + failed` while leaving
`total` untouched (first conjunct — hence `success + failed ≤ total` at
every point), and after the whole fresh single-account run — batching
plus the optional retry passes — `success + failed = total` exactly.
(The originally claimed inequality added `skipped` to the sum; it fails
because `skipped` counts members excluded *before* `total` was fixed.) -/
theorem c2_amended_stat_conservation (resp : Nat → PlatformResult) (raw : List Member)
    (fb : Bool) (lim bs delay : Nat) (nr : Bool) (hbs : 1 ≤ bs) :
    (∀ out s, (record_result out s).stats.success + (record_result out s).stats.failed
        = s.stats.success + s.stats.failed + 1 ∧
      (record_result out s).stats.total = s.stats.total) ∧
    (main_single_run resp raw fb lim bs delay nr).1.stats.success
        + (main_single_run resp raw fb lim bs delay nr).1.stats.failed
      = (main_single_run resp raw fb lim bs delay nr).1.stats.total := by
  refine ⟨fun out s => ⟨(record_result_effect out s).1, (record_result_effect out s).2.1⟩, ?_⟩
  unfold main_single_run
  dsimp only
  by_cases hm : (TelegramMigrator.get_chat_members fb lim
      (TelegramMigrator.init "user_migration") raw).1 = []
  · rw [if_pos hm]
    rfl
  · rw [if_neg hm]
    have hb := batch_add_users_effect resp bs delay hbs
      { (TelegramMigrator.get_chat_members fb lim
          (TelegramMigrator.init "user_migration") raw).2 with
        stats := { (TelegramMigrator.get_chat_members fb lim
            (TelegramMigrator.init "user_migration") raw).2.stats with
          total := ((TelegramMigrator.get_chat_members fb lim
            (TelegramMigrator.init "user_migration") raw).1.length : Int) } }
      (List.map Member.id (TelegramMigrator.get_chat_members fb lim
        (TelegramMigrator.init "user_migration") raw).1)
      rfl rfl
    split
    · split
      · have hr := retry_failed_users_effect resp
          (TelegramMigrator.batch_add_users resp bs delay
            { (TelegramMigrator.get_chat_members fb lim
                (TelegramMigrator.init "user_migration") raw).2 with
              stats := { (TelegramMigrator.get_chat_members fb lim
                  (TelegramMigrator.init "user_migration") raw).2.stats with
                total := ((TelegramMigrator.get_chat_members fb lim
                  (TelegramMigrator.init "user_migration") raw).1.length : Int) } }
            (List.map Member.id (TelegramMigrator.get_chat_members fb lim
              (TelegramMigrator.init "user_migration") raw).1)).1
          (List.filter (fun u =>
            !decide (u ∈ (TelegramMigrator.batch_add_users resp bs delay
              { (TelegramMigrator.get_chat_members fb lim
                  (TelegramMigrator.init "user_migration") raw).2 with
                stats := { (TelegramMigrator.get_chat_members fb lim
                    (TelegramMigrator.init "user_migration") raw).2.stats with
                  total := ((TelegramMigrator.get_chat_members fb lim
                    (TelegramMigrator.init "user_migration") raw).1.length : Int) } }
              (List.map Member.id (TelegramMigrator.get_chat_members fb lim
                (TelegramMigrator.init "user_migration") raw).1)).1.processed_users))
            (List.map Member.id (TelegramMigrator.get_chat_members fb lim
              (TelegramMigrator.init "user_migration") raw).1)) 3
        rw [hr.1, hr.2, hb.1, hb.2]
        simp only [List.length_map]
        have hsucc : (TelegramMigrator.get_chat_members fb lim
            (TelegramMigrator.init "user_migration") raw).2.stats.success = 0 := rfl
        have hfail : (TelegramMigrator.get_chat_members fb lim
            (TelegramMigrator.init "user_migration") raw).2.stats.failed = 0 := rfl
        omega
      · rw [hb.1, hb.2]
        simp only [List.length_map]
        have hsucc : (TelegramMigrator.get_chat_members fb lim
            (TelegramMigrator.init "user_migration") raw).2.stats.success = 0 := rfl
        have hfail : (TelegramMigrator.get_chat_members fb lim
            (TelegramMigrator.init "user_migration") raw).2.stats.failed = 0 := rfl
        omega
    · rw [hb.1, hb.2]
      simp only [List.length_map]
      have hsucc : (TelegramMigrator.get_chat_members fb lim
          (TelegramMigrator.init "user_migration") raw).2.stats.success = 0 := rfl
      have hfail : (TelegramMigrator.get_chat_members fb lim
          (TelegramMigrator.init "user_migration") raw).2.stats.failed = 0 := rfl
      omega

/-- Witness for the amended C2 at a concrete run. -/
theorem c2_amended_stat_conservation_witness :
    1 ≤ 5 ∧
    (main_single_run (fun _ => .ok) botAndHuman true 0 5 30 true).1.stats.success
        + (main_single_run (fun _ => .ok) botAndHuman true 0 5 30 true).1.stats.failed
      = (main_single_run (fun _ => .ok) botAndHuman true 0 5 30 true).1.stats.total :=
  ⟨by decide,
   (c2_amended_stat_conservation (fun _ => .ok) botAndHuman true 0 5 30 true
     (by decide)).2⟩

/-! ## C10 : multi-account progress isolation -/

/-- `getD` is unaffected by `set` at a different index. -/
theorem getD_set_ne {α : Type} (l : List α) (i j : Nat) (x d : α) (h : i ≠ j) :
    (l.set i x).getD j d = l.getD j d := by
  rw [List.getD_eq_getD_get?, List.getD_eq_getD_get?, List.get?_eq_getElem?,
    List.get?_eq_getElem?, List.getElem?_set_ne h]

/-- A successful pick only advances the rotation counter; in particular it
leaves the executor list unchanged. -/
theorem get_best_preserves_migrators (m : MultiAccountMigrator) (i : Nat)
    (m' : MultiAccountMigrator)
    (hret : m.get_best_available_migrator = some (i, m')) :
    m'.active_migrators = m.active_migrators := by
  unfold MultiAccountMigrator.get_best_available_migrator at hret
  cases hs : sortByScoreDesc m.available with
  | nil => rw [hs] at hret; exact absurd hret (by simp)
  | cons best rest =>
    rw [hs] at hret
    simp only [Option.some.injEq, Prod.mk.injEq] at hret
    rw [← hret.2]

/-- `add_user` on one executor never emits a progress read or clear. -/
theorem add_user_no_progress_io (resp : Nat → PlatformResult)
    (s : TelegramMigrator) (uid : Nat) :
    ((TelegramMigrator.add_user resp s uid).2.2).filter progress_read_or_clear = [] := by
  unfold TelegramMigrator.add_user
  split
  · rfl
  split
  · rfl
  cases resp uid <;> simp [rejected_case, progress_read_or_clear]

/-- The fallback loop emits no progress read or clear. -/
theorem fallback_loop_no_progress_io (resp : Nat → Nat → PlatformResult)
    (uid : Nat) (ex : Option Nat) (ma : Nat) :
    ∀ fuel attempts m,
      ((MultiAccountMigrator.fallback_loop resp uid ex ma fuel attempts m).2.2).filter
        progress_read_or_clear = [] := by
  intro fuel
  induction fuel with
  | zero => intro attempts m; rfl
  | succ fuel ih =>
    intro attempts m
    rw [MultiAccountMigrator.fallback_loop]
    split
    · cases hp : m.get_best_available_migrator with
      | none => rfl
      | some p =>
        obtain ⟨i, m1⟩ := p
        simp only
        split
        · exact ih _ _
        · split
          · simp [List.filter_cons, progress_read_or_clear, add_user_no_progress_io]
          · dsimp only
            simp [List.filter_append, List.filter_cons, progress_read_or_clear,
              add_user_no_progress_io, ih]
    · rfl

/-- The scheduler body emits no progress read or clear. -/
theorem proceed_no_progress_io (resp : Nat → Nat → PlatformResult)
    (fuel uid i : Nat) (m : MultiAccountMigrator) :
    ((MultiAccountMigrator.proceed resp fuel uid i m).2.2).filter
      progress_read_or_clear = [] := by
  unfold MultiAccountMigrator.proceed
  dsimp only
  split
  · simp [List.filter_cons, progress_read_or_clear, add_user_no_progress_io]
  split
  · dsimp only
    simp [MultiAccountMigrator.add_user_with_fallback, List.filter_append,
      List.filter_cons, progress_read_or_clear, add_user_no_progress_io,
      fallback_loop_no_progress_io]
  · simp [List.filter_cons, progress_read_or_clear, add_user_no_progress_io]

/-- A whole scheduler `add_user` call emits no progress read or clear. -/
theorem sched_add_user_no_progress_io (resp : Nat → Nat → PlatformResult)
    (fuel : Nat) (m : MultiAccountMigrator) (uid : Nat) :
    ((MultiAccountMigrator.add_user resp fuel m uid).2.2).filter
      progress_read_or_clear = [] := by
  unfold MultiAccountMigrator.add_user
  split
  · rfl
  cases h1 : m.get_best_available_migrator with
  | some p => exact proceed_no_progress_io resp fuel uid p.1 p.2
  | none =>
    simp only
    cases h2 : ({ m with now := m.now + 60} : MultiAccountMigrator).get_best_available_migrator with
    | none => rfl
    | some p =>
      simp [List.filter_cons, progress_read_or_clear, proceed_no_progress_io]

theorem update_perf_at_migrators (m : MultiAccountMigrator) (i : Nat) (b : Bool) :
    (m.update_perf_at i b).active_migrators = m.active_migrators := rfl

theorem set_cooldown_migrators (m : MultiAccountMigrator) (i d : Nat) :
    (m.set_account_cooldown i d).active_migrators = m.active_migrators := rfl

/-- Executors whose account is never attempted by the fallback loop are
left untouched. -/
theorem fallback_loop_untouched (resp : Nat → Nat → PlatformResult) (uid : Nat)
    (ex : Option Nat) (ma : Nat) :
    ∀ fuel attempts m j,
      j ∉ attempted_accounts
        (MultiAccountMigrator.fallback_loop resp uid ex ma fuel attempts m).2.2 →
      (MultiAccountMigrator.fallback_loop resp uid ex ma fuel attempts
          m).2.1.active_migrators.getD j (TelegramMigrator.init "")
        = m.active_migrators.getD j (TelegramMigrator.init "") := by
  intro fuel
  induction fuel with
  | zero => intro attempts m j _; rfl
  | succ fuel ih =>
    intro attempts m j hj
    rw [MultiAccountMigrator.fallback_loop] at hj ⊢
    by_cases hc : attempts < ma
    · rw [if_pos hc] at hj ⊢
      cases hp : m.get_best_available_migrator with
      | none => rfl
      | some p =>
        obtain ⟨i, m1⟩ := p
        have hm1 := get_best_preserves_migrators m i m1 hp
        rw [hp] at hj
        dsimp only at hj ⊢
        by_cases he : ex = some i
        · rw [if_pos he] at hj ⊢
          rw [ih _ _ _ hj]
          rw [hm1]
        · rw [if_neg he] at hj ⊢
          by_cases ht : (TelegramMigrator.add_user (resp i)
              (m1.active_migrators.getD i (TelegramMigrator.init "")) uid).1.toBool = true
          · rw [if_pos ht] at hj ⊢
            rw [attempted_accounts_cons_attemptOn, add_user_no_attemptOn] at hj
            have hji : j ≠ i := by simpa using hj
            dsimp only
            rw [update_perf_at_migrators]
            dsimp only
            rw [getD_set_ne _ _ _ _ _ (fun hh => hji hh.symm), hm1]
          · rw [if_neg ht] at hj ⊢
            dsimp only at hj ⊢
            rw [attempted_accounts_append, attempted_accounts_cons_attemptOn,
              add_user_no_attemptOn] at hj
            simp only [List.nil_append, List.cons_append, List.mem_cons,
              List.mem_append, not_or] at hj
            rw [ih _ _ _ hj.2]
            split
            · rw [set_cooldown_migrators, update_perf_at_migrators]
              dsimp only
              rw [getD_set_ne _ _ _ _ _ (fun hh => hj.1 hh.symm), hm1]
            · rw [update_perf_at_migrators]
              dsimp only
              rw [getD_set_ne _ _ _ _ _ (fun hh => hj.1 hh.symm), hm1]
    · rw [if_neg hc]

theorem add_user_with_fallback_untouched (resp : Nat → Nat → PlatformResult)
    (fuel uid : Nat) (ex : Option Nat) (m : MultiAccountMigrator) (j : Nat)
    (hj : j ∉ attempted_accounts
      (MultiAccountMigrator.add_user_with_fallback resp fuel uid ex m).2.2) :
    (MultiAccountMigrator.add_user_with_fallback resp fuel uid ex
        m).2.1.active_migrators.getD j (TelegramMigrator.init "")
      = m.active_migrators.getD j (TelegramMigrator.init "") := by
  unfold MultiAccountMigrator.add_user_with_fallback at hj ⊢
  exact fallback_loop_untouched resp uid ex _ fuel 0 m j hj

/-- Executors whose account is not attempted by one scheduler body call
are left untouched. -/
theorem proceed_untouched (resp : Nat → Nat → PlatformResult) (fuel uid i : Nat)
    (m : MultiAccountMigrator) (j : Nat)
    (hj : j ∉ attempted_accounts (MultiAccountMigrator.proceed resp fuel uid i m).2.2) :
    (MultiAccountMigrator.proceed resp fuel uid i m).2.1.active_migrators.getD j
        (TelegramMigrator.init "")
      = m.active_migrators.getD j (TelegramMigrator.init "") := by
  unfold MultiAccountMigrator.proceed at hj ⊢
  dsimp only at hj ⊢
  by_cases ht : (TelegramMigrator.add_user (resp i)
      (m.active_migrators.getD i (TelegramMigrator.init "")) uid).1.toBool = true
  · rw [if_pos ht] at hj ⊢
    rw [attempted_accounts_cons_attemptOn, add_user_no_attemptOn] at hj
    have hji : j ≠ i := by simpa using hj
    dsimp only
    rw [update_perf_at_migrators]
    exact getD_set_ne _ _ _ _ _ (fun hh => hji hh.symm)
  · rw [if_neg ht] at hj ⊢
    by_cases hf : last_error (TelegramMigrator.add_user (resp i)
        (m.active_migrators.getD i (TelegramMigrator.init "")) uid).2.1
        = "Peer Flood Error"
    · rw [if_pos hf] at hj ⊢
      dsimp only at hj ⊢
      rw [attempted_accounts_append, attempted_accounts_cons_attemptOn,
        add_user_no_attemptOn] at hj
      simp only [List.nil_append, List.cons_append, List.mem_cons,
        List.mem_append, not_or] at hj
      rw [add_user_with_fallback_untouched resp fuel uid (some i) _ j hj.2]
      rw [set_cooldown_migrators, update_perf_at_migrators]
      exact getD_set_ne _ _ _ _ _ (fun hh => hj.1 hh.symm)
    · rw [if_neg hf] at hj ⊢
      rw [attempted_accounts_cons_attemptOn, add_user_no_attemptOn] at hj
      have hji : j ≠ i := by simpa using hj
      dsimp only
      split
      · dsimp only
        rw [update_perf_at_migrators]
        exact getD_set_ne _ _ _ _ _ (fun hh => hji hh.symm)
      · rw [update_perf_at_migrators]
        exact getD_set_ne _ _ _ _ _ (fun hh => hji hh.symm)

/-- **C10 helper.** Executors whose account is not attempted during one
scheduler `add_user` call keep their entire state. -/
theorem sched_add_user_untouched (resp : Nat → Nat → PlatformResult)
    (fuel : Nat) (m : MultiAccountMigrator) (uid j : Nat)
    (hj : j ∉ attempted_accounts (MultiAccountMigrator.add_user resp fuel m uid).2.2) :
    (MultiAccountMigrator.add_user resp fuel m uid).2.1.active_migrators.getD j
        (TelegramMigrator.init "")
      = m.active_migrators.getD j (TelegramMigrator.init "") := by
  unfold MultiAccountMigrator.add_user at hj ⊢
  by_cases hnil : m.active_migrators = []
  · rw [if_pos hnil]
  · rw [if_neg hnil] at hj ⊢
    cases h1 : m.get_best_available_migrator with
    | some p =>
      rw [h1] at hj
      dsimp only at hj ⊢
      have hm1 := get_best_preserves_migrators m p.1 p.2 (by rw [h1])
      rw [proceed_untouched resp fuel uid p.1 p.2 j hj, hm1]
    | none =>
      rw [h1] at hj
      dsimp only at hj ⊢
      cases h2 : ({ m with now := m.now + 60 } :
          MultiAccountMigrator).get_best_available_migrator with
      | none => rfl
      | some p =>
        rw [h2] at hj
        dsimp only at hj ⊢
        have hm1 := get_best_preserves_migrators _ p.1 p.2 (by rw [h2])
        have hj' : j ∉ attempted_accounts
            (MultiAccountMigrator.proceed resp fuel uid p.1 p.2).2.2 := by
          intro hc
          exact hj (by simpa [attempted_accounts, List.filterMap_cons] using hc)
        rw [proceed_untouched resp fuel uid p.1 p.2 j hj', hm1]

/-- The member loop of the multi-account `main` path emits no progress
read or clear. -/
theorem multi_member_loop_no_progress_io (resp : Nat → Nat → PlatformResult)
    (fuel : Nat) :
    ∀ (ms : List Member) (acc : MultiAccountMigrator × List Event),
      acc.2.filter progress_read_or_clear = [] →
      ((ms.foldl (fun acc mem =>
        let r := MultiAccountMigrator.add_user resp fuel acc.1 mem.id
        let m' := if r.1 then
            { r.2.1 with stats := { r.2.1.stats with success := r.2.1.stats.success + 1 } }
          else
            { r.2.1 with stats := { r.2.1.stats with failed := r.2.1.stats.failed + 1 } }
        (m', acc.2 ++ r.2.2)) acc).2).filter progress_read_or_clear = [] := by
  intro ms
  induction ms with
  | nil => intro acc h; simpa using h
  | cons mem rest ih =>
    intro acc h
    rw [List.foldl_cons]
    apply ih
    dsimp only
    rw [List.filter_append, h, sched_add_user_no_progress_io]
    rfl

/-- The whole multi-account `main` path never reads or clears a progress
file. -/
theorem main_multi_run_no_progress_io (resp : Nat → Nat → PlatformResult)
    (accounts : List Account) (raw : List Member) (fb : Bool) (lim fuel : Nat) :
    ((main_multi_run resp accounts raw fb lim fuel).2).filter
      progress_read_or_clear = [] := by
  unfold main_multi_run
  dsimp only
  split
  · rfl
  · exact multi_member_loop_no_progress_io resp fuel _ _ rfl

/-- **C10.** In multi-account mode: (1) every executor starts with an
empty processed set, and (2) its own progress file derived from its own
session name (`user_migration_{i}` by default); (3) the whole
multi-account `main` path never loads or clears a progress file; and
(4) a scheduler call leaves every executor whose account it did not
attempt completely untouched, so processed sets are per-account, never
shared. -/
theorem c10_progress_isolation :
    (∀ accounts : List Account,
       ∀ ex ∈ (MultiAccountMigrator.init accounts).active_migrators,
         ex.processed_users = []) ∧
    (∀ accounts : List Account,
       (MultiAccountMigrator.init accounts).active_migrators.map
           (fun ex => ex.progress_file)
         = accounts.enum.map (fun p =>
             (p.2.session_name.getD ("user_migration_" ++ toString p.1))
               ++ "_progress.pkl")) ∧
    (∀ (resp : Nat → Nat → PlatformResult) (accounts : List Account)
       (raw : List Member) (fb : Bool) (lim fuel : Nat),
       ((main_multi_run resp accounts raw fb lim fuel).2).filter
         progress_read_or_clear = []) ∧
    (∀ (resp : Nat → Nat → PlatformResult) (fuel : Nat)
       (m : MultiAccountMigrator) (uid j : Nat),
       j ∉ attempted_accounts (MultiAccountMigrator.add_user resp fuel m uid).2.2 →
       (MultiAccountMigrator.add_user resp fuel m uid).2.1.active_migrators.getD j
           (TelegramMigrator.init "")
         = m.active_migrators.getD j (TelegramMigrator.init "")) := by
  refine ⟨?_, ?_, main_multi_run_no_progress_io, sched_add_user_untouched⟩
  · intro accounts ex hex
    obtain ⟨p, -, rfl⟩ := List.mem_map.mp hex
    rfl
  · intro accounts
    rw [MultiAccountMigrator.init]
    rw [List.map_map]
    rfl

/-- Witness for C10 at a concrete two-account scheduler call: account 1
was not attempted, so its executor is untouched. -/
theorem c10_progress_isolation_witness :
    1 ∉ attempted_accounts
      (MultiAccountMigrator.add_user (fun _ _ => .ok) 4 threeAccounts 42).2.2 ∧
    (MultiAccountMigrator.add_user (fun _ _ => .ok) 4
        threeAccounts 42).2.1.active_migrators.getD 1 (TelegramMigrator.init "")
      = threeAccounts.active_migrators.getD 1 (TelegramMigrator.init "") :=
  ⟨by decide,
   (c10_progress_isolation).2.2.2 (fun _ _ => .ok) 4 threeAccounts 42 1 (by decide)⟩
